import Mathlib

/-!
Shallow embedding of the data model in `app/models.py` of the roleplay chat
application, together with the Prompt Injection Scheduling & Execution Engine
that the specification defines over that schema.  Entities keep the source's
field names; JSON-typed columns are modelled by the tagged value type
`JsonValue`, `datetime` columns by natural-number timestamps (seconds since
epoch), and `Decimal(3,1)` columns by integer tenths.  Auto-assigned primary
keys (`id: Optional[int]`) are modelled as `Int`, the value a persisted row
carries.
-/

/-- Tagged structured value standing in for the JSON-typed columns of the
schema (`trigger_config`, `variables`, `conditions`, `feelings`, ...):
a closed union of null / bool / number / string / array / map, as the spec's
design notes prescribe for `Dict[str, Any]` columns. -/
inductive JsonValue where
  | null : JsonValue
  | bool (b : Bool) : JsonValue
  | num (n : Int) : JsonValue
  | str (s : String) : JsonValue
  | arr (xs : List JsonValue) : JsonValue
  | obj (kvs : List (String × JsonValue)) : JsonValue

/-- Enum `PromptTriggerType` from `app/models.py` (lines 16-20): a closed set
of exactly four trigger kinds. -/
inductive PromptTriggerType where
  | TIME_INTERVAL
  | MESSAGE_COUNT
  | CONTEXT_CHANGE
  | MANUAL
  deriving DecidableEq

/-- Entity `PromptTemplate` from `app/models.py` (lines 126-138), the fields
relevant to the prompt-engineering subsystem.  Defaults mirror the schema's
`Field(default=...)` declarations. -/
structure PromptTemplate where
  id : Int
  name : String
  description : String := ""
  template_content : String
  /-- Source field `variables` (a reserved word in Lean). -/
  template_variables : List (String × JsonValue) := []
  conditions : List (String × JsonValue) := []
  category : String := "general"
  is_system : Bool := false
  created_at : Nat
  updated_at : Nat

/-- Entity `PromptInjection` from `app/models.py` (lines 144-156).  Defaults
mirror the schema: `trigger_config` defaults to the empty mapping,
`frequency` to `1`, `is_active` to `true`, `priority` to `0`.  The schema
declares `frequency: int` with no bound, so the field is a plain `Int`. -/
structure PromptInjection where
  id : Int
  name : String
  prompt_template_id : Int
  trigger_type : PromptTriggerType
  trigger_config : List (String × JsonValue) := []
  frequency : Int := 1
  is_active : Bool := true
  priority : Int := 0
  created_at : Nat
  updated_at : Nat

/-- Constraints the schema itself declares on a `PromptInjection` row: the
only declared check is `name: str = Field(max_length=200)`.  No constraint is
declared on `frequency` or `priority`. -/
def PromptInjection.valid (inj : PromptInjection) : Prop :=
  inj.name.length ≤ 200

instance (inj : PromptInjection) : Decidable inj.valid :=
  inferInstanceAs (Decidable (_ ≤ _))

/-- A `PromptInjection` built with every defaultable field left at its schema
default (`app/models.py` lines 151-154). -/
def PromptInjection.mkDefault (id : Int) (name : String)
    (prompt_template_id : Int) (trigger_type : PromptTriggerType)
    (now : Nat) : PromptInjection :=
  { id := id, name := name, prompt_template_id := prompt_template_id,
    trigger_type := trigger_type, created_at := now, updated_at := now }

/-- Entity `PromptInjectionExecution` from `app/models.py` (lines 163-173):
the audit record of one firing attempt. -/
structure PromptInjectionExecution where
  id : Int
  prompt_injection_id : Int
  conversation_id : Int
  executed_at : Nat
  result_content : String
  variables_used : List (String × String) := []
  success : Bool := true
  error_message : Option String := none
  deriving DecidableEq

/-- Entity `CharacterState` from `app/models.py` (lines 180-193).
`energy_level` and `stress_level` are `Decimal(3,1)` columns, modelled as
integer tenths. -/
structure CharacterState where
  id : Int
  character_id : Int
  conversation_id : Int
  mood : String := "neutral"
  relationship_status : String := "neutral"
  feelings : List (String × JsonValue) := []
  custom_attributes : List (String × JsonValue) := []
  energy_level : Int := 50
  stress_level : Int := 0
  is_current : Bool := true
  created_at : Nat

/-- DTO `CharacterStateUpdate` from `app/models.py` (lines 372-378): the
fields an update may change.  The DTO has no `is_current` field. -/
structure CharacterStateUpdate where
  mood : Option String := none
  relationship_status : Option String := none
  feelings : Option (List (String × JsonValue)) := none
  custom_attributes : Option (List (String × JsonValue)) := none
  energy_level : Option Int := none
  stress_level : Option Int := none

/-- Applying a `CharacterStateUpdate` to a `CharacterState`: each present
field replaces the stored one; absent fields leave the row unchanged.  The
DTO carries neither `is_current` nor `conversation_id`, so neither can
change. -/
def applyCharacterStateUpdate (s : CharacterState)
    (u : CharacterStateUpdate) : CharacterState :=
  { s with
    mood := u.mood.getD s.mood,
    relationship_status := u.relationship_status.getD s.relationship_status,
    feelings := u.feelings.getD s.feelings,
    custom_attributes := u.custom_attributes.getD s.custom_attributes,
    energy_level := u.energy_level.getD s.energy_level,
    stress_level := u.stress_level.getD s.stress_level }

/-- C5: every `PromptInjection` carries exactly one `trigger_type`, drawn
from the closed four-variant enum `PromptTriggerType`, so a case split over
it is exhaustive. -/
theorem trigger_type_closed_enum (inj : PromptInjection) :
    inj.trigger_type = PromptTriggerType.TIME_INTERVAL ∨
    inj.trigger_type = PromptTriggerType.MESSAGE_COUNT ∨
    inj.trigger_type = PromptTriggerType.CONTEXT_CHANGE ∨
    inj.trigger_type = PromptTriggerType.MANUAL := by
  cases h : inj.trigger_type <;> simp

/-- C10: a `PromptInjection` constructed with all defaulted fields is
immediately live: `is_active = true`, `frequency = 1`, `priority = 0`,
`trigger_config` empty. -/
theorem mkDefault_injection_live (id : Int) (name : String)
    (tid : Int) (tt : PromptTriggerType) (now : Nat) :
    (PromptInjection.mkDefault id name tid tt now).is_active = true ∧
    (PromptInjection.mkDefault id name tid tt now).frequency = 1 ∧
    (PromptInjection.mkDefault id name tid tt now).priority = 0 ∧
    (PromptInjection.mkDefault id name tid tt now).trigger_config = [] := by
  refine ⟨rfl, rfl, rfl, rfl⟩

/-- C4 counterexample: it is not the case that every `PromptInjection`
satisfying the schema's declared constraints has `frequency ≥ 1`: the schema
declares no lower bound on `frequency`, so a row with `frequency = 0` passes
every declared check. -/
theorem frequency_lower_bound_fails :
    ¬ (∀ inj : PromptInjection, inj.valid → 1 ≤ inj.frequency) := by
  intro h
  have h0 : (1 : Int) ≤ 0 :=
    h { id := 1, name := "x", prompt_template_id := 1,
        trigger_type := PromptTriggerType.MESSAGE_COUNT,
        frequency := 0, created_at := 0, updated_at := 0 }
      (by decide)
  exact absurd h0 (by decide)

/-- C4 amended: `frequency` defaults to `1`, but the schema enforces no lower
bound, so `frequency ≥ 1` is not an invariant of the entity: a row with
`frequency < 1` satisfies every constraint the schema declares. -/
theorem frequency_default_one_not_invariant
    (id : Int) (name : String) (tid : Int) (tt : PromptTriggerType)
    (now : Nat) :
    (PromptInjection.mkDefault id name tid tt now).frequency = 1 ∧
    ∃ inj : PromptInjection, inj.valid ∧ inj.frequency < 1 := by
  refine ⟨rfl, ⟨{ id := 1, name := "x", prompt_template_id := 1,
                  trigger_type := PromptTriggerType.MESSAGE_COUNT,
                  frequency := 0, created_at := 0, updated_at := 0 },
                by decide, by decide⟩⟩

/-- Context snapshot a trigger is evaluated against.  Modelled from the spec:
the source contains no Trigger Evaluator; §4.1 and §6 list its inputs —
current message count, wall-clock time, the previous firing state for this
injection (`load_last_firing_state`), and a context-changed flag. -/
structure TriggerContext where
  current_message_count : Nat
  now_seconds : Nat
  last_fired_at : Option Nat := none
  last_fired_message_count : Nat := 0
  times_fired : Nat := 0
  context_changed : Bool := false

/-- Lookup of a key in a JSON object, first binding wins. -/
def jsonLookup (k : String) : List (String × JsonValue) → Option JsonValue
  | [] => none
  | (k', v) :: rest => if k' = k then some v else jsonLookup k rest

/-- Interval duration carried by a TIME_INTERVAL `trigger_config`; `none`
when the required key is missing or not a number (a configuration error). -/
def configInterval (cfg : List (String × JsonValue)) : Option Int :=
  match jsonLookup "interval_seconds" cfg with
  | some (JsonValue.num n) => some n
  | _ => none

/-- Messages accumulated since this injection last fired. -/
def newMessages (ctx : TriggerContext) : Int :=
  (ctx.current_message_count : Int) - (ctx.last_fired_message_count : Int)

/-- Trigger Evaluator for automatic conversation events.  Modelled from the
spec: the source contains no evaluator; §4.1 gives the per-type semantics.
An inactive injection never fires.  TIME_INTERVAL fires when elapsed time
since the last successful firing reaches the configured interval, gated so
that with `frequency` > 1 only every Nth eligible tick fires (the documented
policy choice); a malformed `trigger_config` fails safe and never fires.
MESSAGE_COUNT fires when accumulated new messages reach `frequency`.
CONTEXT_CHANGE fires on the context-changed flag, debounced by `frequency`
as a minimum message gap.  MANUAL never fires automatically. -/
def shouldFire (inj : PromptInjection) (ctx : TriggerContext) : Bool :=
  if inj.is_active = false then false
  else
    match inj.trigger_type with
    | PromptTriggerType.TIME_INTERVAL =>
        match configInterval inj.trigger_config with
        | none => false
        | some interval =>
            let eligible :=
              match ctx.last_fired_at with
              | none => true
              | some t => decide (interval ≤ (ctx.now_seconds : Int) - (t : Int))
            eligible &&
              (decide (inj.frequency ≤ 1) ||
                decide ((ctx.times_fired + 1) % inj.frequency.toNat = 0))
    | PromptTriggerType.MESSAGE_COUNT => decide (inj.frequency ≤ newMessages ctx)
    | PromptTriggerType.CONTEXT_CHANGE =>
        ctx.context_changed && decide (inj.frequency ≤ newMessages ctx)
    | PromptTriggerType.MANUAL => false

/-- Explicit external invocation of an injection.  Modelled from the spec:
MANUAL firing bypasses frequency and time checks but remains subject to
`is_active`. -/
def manualFire (inj : PromptInjection) : Bool :=
  inj.is_active

/-- C1: for an active MESSAGE_COUNT injection, the evaluator fires iff the
messages accumulated since the last firing reach `frequency`. -/
theorem message_count_fires_iff_accumulated (inj : PromptInjection)
    (ctx : TriggerContext) (hact : inj.is_active = true)
    (htype : inj.trigger_type = PromptTriggerType.MESSAGE_COUNT) :
    shouldFire inj ctx = true ↔
      (ctx.current_message_count : Int) - (ctx.last_fired_message_count : Int)
        ≥ inj.frequency := by
  simp [shouldFire, hact, htype, newMessages, ge_iff_le]

/-- C1 witness: an active MESSAGE_COUNT injection with `frequency = 3`,
evaluated with 5 messages accumulated against a last-fired count of 2. -/
theorem message_count_fires_iff_accumulated_witness :
    shouldFire
      { id := 1, name := "rule", prompt_template_id := 1,
        trigger_type := PromptTriggerType.MESSAGE_COUNT, frequency := 3,
        created_at := 0, updated_at := 0 }
      { current_message_count := 5, now_seconds := 100,
        last_fired_message_count := 2 } = true ↔
      ((5 : Nat) : Int) - ((2 : Nat) : Int) ≥ (3 : Int) :=
  message_count_fires_iff_accumulated _ _ rfl rfl

/-- C3: an injection with `is_active = false` never fires — not from any
automatic event, whatever its trigger type, configuration and context, and
not from an explicit manual invocation either. -/
theorem inactive_never_fires (inj : PromptInjection) (ctx : TriggerContext)
    (h : inj.is_active = false) :
    shouldFire inj ctx = false ∧ manualFire inj = false := by
  exact ⟨by simp [shouldFire, h], by simp [manualFire, h]⟩

/-- C3 witness: a deactivated MANUAL injection fires neither automatically
nor on explicit invocation. -/
theorem inactive_never_fires_witness :
    shouldFire
      { id := 7, name := "off", prompt_template_id := 1,
        trigger_type := PromptTriggerType.MANUAL, is_active := false,
        created_at := 0, updated_at := 0 }
      { current_message_count := 9, now_seconds := 50,
        context_changed := true } = false ∧
    manualFire
      { id := 7, name := "off", prompt_template_id := 1,
        trigger_type := PromptTriggerType.MANUAL, is_active := false,
        created_at := 0, updated_at := 0 } = false :=
  inactive_never_fires _ _ rfl

/-- Firing precedence between two injections.  Modelled from the spec:
§4.3 step 3 sorts firing candidates descending by `priority`, ties broken by
ascending `id`. -/
def fireBefore (a b : PromptInjection) : Bool :=
  decide (b.priority < a.priority) ||
    (decide (a.priority = b.priority) && decide (a.id ≤ b.id))

/-- Propositional form of `fireBefore`, the order the scheduler sorts by. -/
def fireLE (a b : PromptInjection) : Prop :=
  fireBefore a b = true

instance : DecidableRel fireLE := fun a b =>
  inferInstanceAs (Decidable (fireBefore a b = true))

instance : IsTotal PromptInjection fireLE where
  total a b := by
    simp only [fireLE, fireBefore, Bool.or_eq_true, Bool.and_eq_true,
      decide_eq_true_eq]
    omega

instance : IsTrans PromptInjection fireLE where
  trans a b c := by
    simp only [fireLE, fireBefore, Bool.or_eq_true, Bool.and_eq_true,
      decide_eq_true_eq]
    omega

/-- Order in which the firing candidates of one evaluation cycle fire.
Modelled from the spec: a stable sort by the precedence `fireLE`. -/
def firingOrder (l : List PromptInjection) : List PromptInjection :=
  List.insertionSort fireLE l

/-- The worked example of §8: priorities {5, 5, 3} carried by ids {2, 1, 3}. -/
def exampleFiringSet : List PromptInjection :=
  [ { id := 2, name := "a", prompt_template_id := 1,
      trigger_type := PromptTriggerType.MANUAL, priority := 5,
      created_at := 0, updated_at := 0 },
    { id := 1, name := "b", prompt_template_id := 1,
      trigger_type := PromptTriggerType.MANUAL, priority := 5,
      created_at := 0, updated_at := 0 },
    { id := 3, name := "c", prompt_template_id := 1,
      trigger_type := PromptTriggerType.MANUAL, priority := 3,
      created_at := 0, updated_at := 0 } ]

/-- C2: within a cycle the firing order is sorted by descending priority
with ties broken by ascending id, it is a permutation of the candidates, the
underlying precedence is total (hence the order is deterministic for any
candidate set), and the §8 example — priorities {5,5,3} with ids {2,1,3} —
fires in id order [1, 2, 3]. -/
theorem firing_order_priority_desc_id_asc (l : List PromptInjection) :
    List.Sorted fireLE (firingOrder l) ∧
    (firingOrder l).Perm l ∧
    (∀ a b : PromptInjection, fireLE a b ∨ fireLE b a) ∧
    (firingOrder exampleFiringSet).map PromptInjection.id = [1, 2, 3] := by
  refine ⟨List.sorted_insertionSort fireLE l,
          List.perm_insertionSort fireLE l,
          fun a b => IsTotal.total a b, by decide⟩

/-- Rendering failures of §4.2 and §7: an unresolved placeholder is a hard
failure, and an undeclared condition name is a configuration error. -/
inductive RenderError where
  | unresolvedVariable (name : String)
  | configurationError (name : String)
  deriving DecidableEq

/-- One segment of a template.  Modelled from the spec: the source stores
`template_content` as a string with `\x7bvariable\x7d` placeholders and gates
optional segments by named `conditions`, but fixes no concrete marker
grammar, so the renderer takes the template in segment form: literal text, a
variable placeholder, or a condition-gated segment. -/
inductive TemplateSeg where
  | lit (s : String)
  | var (name : String)
  | cond (name : String) (body : String)
  deriving DecidableEq

/-- Lookup in a string-valued binding list, first binding wins. -/
def lookupStr (k : String) : List (String × String) → Option String
  | [] => none
  | (k', v) :: rest => if k' = k then some v else lookupStr k rest

/-- Lookup in a boolean condition environment, first binding wins. -/
def lookupBool (k : String) : List (String × Bool) → Option Bool
  | [] => none
  | (k', v) :: rest => if k' = k then some v else lookupBool k rest

/-- Rendering of one segment.  Modelled from the spec: placeholder
substitution is exact-match on declared variable names and an unresolved
placeholder is a hard failure; an unmet condition removes the whole segment
from the output. -/
def renderSeg (bindings : List (String × String))
    (conditions : List (String × Bool)) :
    TemplateSeg → Except RenderError String
  | TemplateSeg.lit s => Except.ok s
  | TemplateSeg.var n =>
      match lookupStr n bindings with
      | some v => Except.ok v
      | none => Except.error (RenderError.unresolvedVariable n)
  | TemplateSeg.cond n body =>
      match lookupBool n conditions with
      | some true => Except.ok body
      | some false => Except.ok ""
      | none => Except.error (RenderError.configurationError n)

/-- Template Renderer.  Modelled from the spec: a pure function of the
template, the variable bindings and the condition environment; fails on the
first unresolved placeholder or undeclared condition. -/
def renderTemplate (segs : List TemplateSeg)
    (bindings : List (String × String))
    (conditions : List (String × Bool)) : Except RenderError String :=
  match segs with
  | [] => Except.ok ""
  | s :: rest =>
      match renderSeg bindings conditions s with
      | Except.error e => Except.error e
      | Except.ok h =>
          match renderTemplate rest bindings conditions with
          | Except.error e => Except.error e
          | Except.ok t => Except.ok (h ++ t)

/-- C7: rendering is deterministic — two runs on identical (template,
bindings, conditions) inputs produce identical output; the renderer is a
pure function with no hidden state. -/
theorem render_deterministic (segs₁ : List TemplateSeg)
    (bindings₁ : List (String × String)) (conditions₁ : List (String × Bool))
    (segs₂ : List TemplateSeg) (bindings₂ : List (String × String))
    (conditions₂ : List (String × Bool))
    (hs : segs₁ = segs₂) (hb : bindings₁ = bindings₂)
    (hc : conditions₁ = conditions₂) :
    renderTemplate segs₁ bindings₁ conditions₁ =
      renderTemplate segs₂ bindings₂ conditions₂ := by
  rw [hs, hb, hc]

/-- C7 witness: two runs on an identical three-segment template agree. -/
theorem render_deterministic_witness :
    renderTemplate
      [TemplateSeg.lit "Mood: ", TemplateSeg.var "mood",
       TemplateSeg.cond "stressed" " (be gentle)"]
      [("mood", "tense")] [("stressed", true)] =
    renderTemplate
      [TemplateSeg.lit "Mood: ", TemplateSeg.var "mood",
       TemplateSeg.cond "stressed" " (be gentle)"]
      [("mood", "tense")] [("stressed", true)] :=
  render_deterministic _ _ _ _ _ _ rfl rfl rfl

/-- One firing attempt of an evaluation cycle: the injection, the
conversation, the timestamp, and the renderer inputs resolved for it. -/
structure FiringAttempt where
  injection : PromptInjection
  conversation_id : Int
  executed_at : Nat
  segs : List TemplateSeg
  bindings : List (String × String)
  conditions : List (String × Bool)

/-- Human-readable form of a rendering failure, stored in `error_message`. -/
def describeError : RenderError → String
  | RenderError.unresolvedVariable n => "unresolved variable: " ++ n
  | RenderError.configurationError n => "configuration error: " ++ n

/-- Execution record of one firing attempt.  Modelled from the spec: §4.3
step 5 — a successful render yields a `success = true` row carrying the
rendered content, a failure yields a `success = false` row with
`error_message` set; either way exactly one row results. -/
def fireOne (a : FiringAttempt) : PromptInjectionExecution :=
  match renderTemplate a.segs a.bindings a.conditions with
  | Except.ok content =>
      { id := 0, prompt_injection_id := a.injection.id,
        conversation_id := a.conversation_id, executed_at := a.executed_at,
        result_content := content, variables_used := a.bindings,
        success := true, error_message := none }
  | Except.error e =>
      { id := 0, prompt_injection_id := a.injection.id,
        conversation_id := a.conversation_id, executed_at := a.executed_at,
        result_content := "", variables_used := a.bindings,
        success := false, error_message := some (describeError e) }

/-- One evaluation cycle over its firing candidates, in order: each attempt
is rendered and recorded independently of the others. -/
def runCycle (attempts : List FiringAttempt) : List PromptInjectionExecution :=
  attempts.map fireOne

/-- C6: a rendering failure for one injection does not disturb the rest of
the cycle — the cycle's records are exactly the records of the injections
before it, then its own failure record (`success = false` with
`error_message` set), then the records of the injections after it, each as
they would be on their own. -/
theorem render_failure_isolated (xs : List FiringAttempt)
    (bad : FiringAttempt) (ys : List FiringAttempt)
    (hfail : ∃ e, renderTemplate bad.segs bad.bindings bad.conditions =
      Except.error e) :
    runCycle (xs ++ bad :: ys) = runCycle xs ++ fireOne bad :: runCycle ys ∧
    (fireOne bad).success = false ∧
    (fireOne bad).error_message.isSome = true := by
  obtain ⟨e, he⟩ := hfail
  refine ⟨?_, ?_, ?_⟩
  · simp [runCycle]
  · simp [fireOne, he]
  · simp [fireOne, he]

/-- C6 witness: a cycle of three attempts whose middle one references an
unbound variable still yields the two outer records unchanged, plus one
failure record for the middle one. -/
theorem render_failure_isolated_witness :
    runCycle
      ([ { injection := PromptInjection.mkDefault 1 "a" 1
             PromptTriggerType.MANUAL 0,
           conversation_id := 1, executed_at := 0,
           segs := [TemplateSeg.lit "one"], bindings := [],
           conditions := [] } ] ++
        { injection := PromptInjection.mkDefault 2 "b" 1
            PromptTriggerType.MANUAL 0,
          conversation_id := 1, executed_at := 0,
          segs := [TemplateSeg.var "missing"], bindings := [],
          conditions := [] } ::
        [ { injection := PromptInjection.mkDefault 3 "c" 1
              PromptTriggerType.MANUAL 0,
            conversation_id := 1, executed_at := 0,
            segs := [TemplateSeg.lit "three"], bindings := [],
            conditions := [] } ]) =
      runCycle
        [ { injection := PromptInjection.mkDefault 1 "a" 1
              PromptTriggerType.MANUAL 0,
            conversation_id := 1, executed_at := 0,
            segs := [TemplateSeg.lit "one"], bindings := [],
            conditions := [] } ] ++
        fireOne
          { injection := PromptInjection.mkDefault 2 "b" 1
              PromptTriggerType.MANUAL 0,
            conversation_id := 1, executed_at := 0,
            segs := [TemplateSeg.var "missing"], bindings := [],
            conditions := [] } ::
        runCycle
          [ { injection := PromptInjection.mkDefault 3 "c" 1
                PromptTriggerType.MANUAL 0,
              conversation_id := 1, executed_at := 0,
              segs := [TemplateSeg.lit "three"], bindings := [],
              conditions := [] } ] ∧
    (fireOne
      { injection := PromptInjection.mkDefault 2 "b" 1
          PromptTriggerType.MANUAL 0,
        conversation_id := 1, executed_at := 0,
        segs := [TemplateSeg.var "missing"], bindings := [],
        conditions := [] }).success = false ∧
    (fireOne
      { injection := PromptInjection.mkDefault 2 "b" 1
          PromptTriggerType.MANUAL 0,
        conversation_id := 1, executed_at := 0,
        segs := [TemplateSeg.var "missing"], bindings := [],
        conditions := [] }).error_message.isSome = true :=
  by
  apply render_failure_isolated
  exact ⟨RenderError.unresolvedVariable "missing", rfl⟩

/-- Append of one execution record to the audit store.  Modelled from the
spec: §6 `append_execution` — the recorder only ever appends. -/
def appendExecution (store : List PromptInjectionExecution)
    (e : PromptInjectionExecution) : List PromptInjectionExecution :=
  store ++ [e]

/-- Recording of one evaluation cycle: each firing attempt appends exactly
one record to the store, in cycle order. -/
def recordCycle (store : List PromptInjectionExecution)
    (attempts : List FiringAttempt) : List PromptInjectionExecution :=
  attempts.foldl (fun st a => appendExecution st (fireOne a)) store

/-- C8: execution records are append-only — recording a cycle leaves every
pre-existing record in place unchanged and adds exactly one new record per
firing attempt, whatever each attempt's outcome. -/
theorem executions_append_only (store : List PromptInjectionExecution)
    (attempts : List FiringAttempt) :
    recordCycle store attempts = store ++ runCycle attempts ∧
    (recordCycle store attempts).length = store.length + attempts.length := by
  have h : ∀ (as : List FiringAttempt) (st : List PromptInjectionExecution),
      recordCycle st as = st ++ runCycle as := by
    intro as
    induction as with
    | nil => intro st; simp [recordCycle, runCycle]
    | cons a rest ih =>
        intro st
        have step : recordCycle st (a :: rest) =
            recordCycle (appendExecution st (fireOne a)) rest := rfl
        rw [step, ih, appendExecution]
        simp [runCycle]
  refine ⟨h attempts store, ?_⟩
  rw [h attempts store]
  simp [runCycle]

/-- Conflict between two `CharacterState` rows: both current for the same
conversation.  The single-current invariant is the absence of any such pair. -/
def currentConflict (a b : CharacterState) : Prop :=
  a.conversation_id = b.conversation_id → a.is_current = true →
    b.is_current = true → False

instance : DecidableRel currentConflict := fun a b =>
  inferInstanceAs (Decidable (a.conversation_id = b.conversation_id →
    a.is_current = true → b.is_current = true → False))

/-- The invariant of §9's design note: for every conversation, at most one
`CharacterState` row is current — no two rows conflict. -/
def singleCurrent (states : List CharacterState) : Prop :=
  states.Pairwise currentConflict

instance (states : List CharacterState) : Decidable (singleCurrent states) :=
  inferInstanceAs (Decidable (states.Pairwise currentConflict))

/-- Creation of a new current state by transactional swap.  Modelled from
the spec: the design notes require the single-current invariant be enforced
by a transactional swap, not ad hoc flag mutation — every stored row of the
same conversation is marked non-current in the same step that appends the
new row as current. -/
def setCurrentState (states : List CharacterState) (s : CharacterState) :
    List CharacterState :=
  (states.map fun t =>
    if t.conversation_id = s.conversation_id then
      { t with is_current := false }
    else t) ++ [{ s with is_current := true }]

/-- Update-in-place of the row with the given id through the source's
`CharacterStateUpdate` DTO, which carries no `is_current` field. -/
def updateStateAt (states : List CharacterState) (i : Int)
    (u : CharacterStateUpdate) : List CharacterState :=
  states.map fun t => if t.id = i then applyCharacterStateUpdate t u else t

/-- C9: both operations on character states preserve the single-current
invariant — the transactional swap that creates a new current state, and any
update through the `CharacterStateUpdate` DTO (which cannot touch
`is_current` or `conversation_id`). -/
theorem single_current_preserved (states : List CharacterState)
    (s : CharacterState) (i : Int) (u : CharacterStateUpdate)
    (h : singleCurrent states) :
    singleCurrent (setCurrentState states s) ∧
    singleCurrent (updateStateAt states i u) := by
  constructor
  · rw [singleCurrent, setCurrentState, List.pairwise_append]
    refine ⟨?_, List.pairwise_singleton _ _, ?_⟩
    · rw [List.pairwise_map]
      refine h.imp ?_
      intro a b hab
      by_cases ha : a.conversation_id = s.conversation_id
      · by_cases hb : b.conversation_id = s.conversation_id
        · simp [ha, hb, currentConflict]
        · simp [ha, hb, currentConflict]
      · by_cases hb : b.conversation_id = s.conversation_id
        · simp [ha, hb, currentConflict]
        · simpa [ha, hb, currentConflict] using hab
    · intro a ha b hb
      simp only [List.mem_singleton] at hb
      subst hb
      simp only [List.mem_map] at ha
      obtain ⟨t, _, rfl⟩ := ha
      by_cases ht : t.conversation_id = s.conversation_id <;>
        simp [ht, currentConflict]
  · rw [singleCurrent, updateStateAt, List.pairwise_map]
    refine h.imp ?_
    intro a b hab
    have pres : ∀ t : CharacterState,
        (if t.id = i then applyCharacterStateUpdate t u else t).conversation_id
          = t.conversation_id ∧
        (if t.id = i then applyCharacterStateUpdate t u else t).is_current
          = t.is_current := by
      intro t
      by_cases ht : t.id = i <;> simp [ht, applyCharacterStateUpdate]
    intro hconv hca hcb
    exact hab ((pres a).1 ▸ (pres b).1 ▸ hconv) ((pres a).2 ▸ hca)
      ((pres b).2 ▸ hcb)

/-- C9 witness: swapping in a new current state over a store holding one
current row for the same conversation, and an update of that row, both
preserve the single-current invariant. -/
theorem single_current_preserved_witness :
    singleCurrent (setCurrentState
      [{ id := 1, character_id := 1, conversation_id := 4,
         created_at := 0 }]
      { id := 2, character_id := 1, conversation_id := 4,
        mood := "stressed", created_at := 5 }) ∧
    singleCurrent (updateStateAt
      [{ id := 1, character_id := 1, conversation_id := 4,
         created_at := 0 }]
      1 { mood := some "calm" }) := by
  apply single_current_preserved
  decide
